import Mathlib

/-!
# Verification of the pyrpl module framework (`pyrpl/modules.py`)

Shallow embedding of the module lifecycle implemented in `pyrpl/modules.py`:
the metaclass-generated `setup(**kwds)`, `set_setup_attributes`,
`load_setup_attributes`, `load_state`, the `owner` property setter,
`create_widget`, `HardwareModule.__setattr__` and the register codec
`_to_pyint` / `_from_pyint`.

Python dicts with string keys are embedded as association lists
`List (String × Int)`; attribute values are embedded as integers (their
concrete type plays no role in the verified properties).  Exceptions are
embedded with `Except`: every fallible operation returns the state it
leaves behind together with `Except PyError Unit`.
-/

namespace Pyrpl

/-- Python exceptions raised by the code under study. -/
inductive PyError where
  | keyError (msg : String)
  | valueError (msg : String)
  deriving Repr, DecidableEq

/-- `d[k]` on a string-keyed dict: first (and, for a Python dict, only)
binding of `k`. -/
def dictGet {α : Type} (d : List (String × α)) (k : String) : Option α :=
  match d with
  | [] => none
  | (k', v) :: rest => if k' = k then some v else dictGet rest k

/-- `d[k] = v` on a string-keyed dict: replace the binding of `k`,
or append it if absent. -/
def dictSet {α : Type} (d : List (String × α)) (k : String) (v : α) :
    List (String × α) :=
  match d with
  | [] => [(k, v)]
  | (k', v') :: rest =>
    if k' = k then (k, v) :: rest else (k', v') :: dictSet rest k v

/-- `d.pop(k)` (the removal part): drop the binding of `k`. -/
def dictPop {α : Type} (d : List (String × α)) (k : String) :
    List (String × α) :=
  match d with
  | [] => []
  | (k', v) :: rest =>
    if k' = k then dictPop rest k else (k', v) :: dictPop rest k

/-! ## Register codec (`HardwareModule._to_pyint` / `_from_pyint`)

```python
def _to_pyint(self, v, bitlength=14):
    v = v & (2 ** bitlength - 1)
    if v >> (bitlength - 1):
        v = v - 2 ** bitlength
    return int(v)

def _from_pyint(self, v, bitlength=14):
    v = int(v)
    if v < 0:
        v = v + 2 ** bitlength
    v = (v & (2 ** bitlength - 1))
    return np.uint32(v)
```

For a Python integer `x` and `n ≥ 0`, `x & (2**n - 1)` is `x mod 2**n`
(non-negative); Lean's `%` on `Int` is `Int.emod`, which likewise returns
the non-negative representative for a positive modulus.  The guard
`v >> (bitlength - 1)` tests a non-negative masked value, so it is the
integer quotient by `2 ** (bitlength - 1)` being non-zero.  `np.uint32`
truncates its (here non-negative) argument modulo `2 ** 32`. -/

/-- `HardwareModule._to_pyint`: two's-complement decode of a register word. -/
def toPyint (v : Int) (bitlength : Nat := 14) : Int :=
  let v := v % 2 ^ bitlength
  if v / 2 ^ (bitlength - 1) ≠ 0 then v - 2 ^ bitlength else v

/-- `HardwareModule._from_pyint`: two's-complement encode to a register word;
the final `np.uint32(v)` truncates modulo `2 ^ 32`. -/
def fromPyint (v : Int) (bitlength : Nat := 14) : Nat :=
  let v := if v < 0 then v + 2 ^ bitlength else v
  let v := v % 2 ^ bitlength
  v.toNat % 2 ^ 32

/-! ## Module state

The observable state of one `BaseModule` instance: the current values of its
setup attributes, its config-file branch `self.c._dict`, the sibling
`states` branch, the `_callback_active` / `_autosave_active` flags and the
`_owner` field.  `callback_count` counts invocations of `self._callback()`
and `setup_runs` counts invocations of the module-specific `self._setup()`;
both are ghost observers used to state "no callback fires" / "`_setup` is
not invoked".  `has_widget` records whether `create_widget` has run. -/

structure ModuleState where
  values : List (String × Int)
  config : List (String × Int)
  states : List (String × List (String × Int))
  callback_active : Bool
  autosave_active : Bool
  owner : Option String
  callback_count : Nat
  setup_runs : Nat
  has_widget : Bool
  deriving Repr, DecidableEq

/-- One primitive action of a module-specific `_setup` routine: write a
setup attribute, or raise.  A `_setup` body is a straight-line sequence of
these. -/
inductive SetupOp where
  | writeAttr (k : String) (v : Int)
  | fail (e : PyError)
  deriving Repr, DecidableEq

/-- Class-level data of a module type: `cls.name`, `_setup_attributes`,
`_callback_attributes` and the body of the module-specific `_setup`
(`pass`, i.e. `[]`, for `BaseModule` itself). -/
structure ModuleClass where
  className : String
  setupAttrs : List String
  callbackAttrs : List String
  setupBody : List SetupOp
  deriving Repr, DecidableEq

/-- Modelled from the spec: the attribute-descriptor write
(`BaseAttribute.__set__`, in `pyrpl/attributes.py`, which is not among the
given source files) minus its callback branch — store the new value and, if
`_autosave_active`, persist it into the module's config branch.  The spec:
"Each applied value is written through the normal attribute setter but with
callbacks suppressed, so it is persisted (if `autosave_active`) but does not
retrigger setup."  This is the whole setter behaviour whenever
`_callback_active = false`, which is the case at every call site below that
uses it directly (`set_setup_attributes` and `setup` both clear
`_callback_active` first and only restore it on exit); the flag-checking
callback branch lives in `setattrOutside` below. -/
def writeNoCB (s : ModuleState) (k : String) (v : Int) : ModuleState :=
  let s := { s with values := dictSet s.values k v }
  if s.autosave_active then { s with config := dictSet s.config k v } else s

/-- `self._setup()` under suppressed callbacks: run the body's writes in
sequence, stopping at the first raise.  The entry increments the ghost
counter `setup_runs` (one `_setup` invocation). -/
def runBody (body : List SetupOp) (s : ModuleState) :
    ModuleState × Except PyError Unit :=
  match body with
  | [] => (s, Except.ok ())
  | SetupOp.writeAttr k v :: rest => runBody rest (writeNoCB s k v)
  | SetupOp.fail e :: _ => (s, Except.error e)

/-- The `for key in self._setup_attributes: if key in kwds:
value = kwds.pop(key); setattr(self, key, value)` loop of
`set_setup_attributes` (modules.py lines 225-228).  Returns the state after
the writes together with the remaining (un-popped) keyword arguments.  The
loop runs with `_callback_active = false`, so each `setattr` is
`writeNoCB`. -/
def popLoop (attrs : List String) (s : ModuleState)
    (kwds : List (String × Int)) : ModuleState × List (String × Int) :=
  match attrs with
  | [] => (s, kwds)
  | a :: rest =>
    match dictGet kwds a with
    | some v => popLoop rest (writeNoCB s a v) (dictPop kwds a)
    | none => popLoop rest s kwds

/-- The exception actually raised by
`raise ValueError("Attribute %s of module %s doesn't exist." % (kwds[0],
self.name))` (modules.py line 232): before the `ValueError` is constructed,
the format arguments are evaluated, and `kwds[0]` indexes the dict of
remaining keyword arguments with the integer `0`.  Keyword-argument keys
are strings and no string equals the integer `0`, so this lookup raises
`KeyError: 0`. -/
def unknownKwdsError : PyError := PyError.keyError "0"

/-- `BaseModule.set_setup_attributes(**kwds)` (modules.py lines 218-232):
save `_callback_active`, clear it, apply every recognised key of `kwds` in
`_setup_attributes` order, restore the flag in the `finally`, then raise if
any keyword argument was not consumed. -/
def set_setup_attributes (M : ModuleClass) (s : ModuleState)
    (kwds : List (String × Int)) : ModuleState × Except PyError Unit :=
  let old := s.callback_active
  let p := popLoop M.setupAttrs { s with callback_active := false } kwds
  let s := { p.1 with callback_active := old }
  if p.2.length > 0 then (s, Except.error unknownKwdsError)
  else (s, Except.ok ())

/-- The metaclass-generated `setup(**kwds)` (modules.py lines 86-95):
clear `_callback_active`, run `set_setup_attributes(**kwds)` then
`self._setup()`, and set `_callback_active = True` in the `finally` on both
the normal and the exceptional exit. -/
def setup (M : ModuleClass) (s : ModuleState) (kwds : List (String × Int)) :
    ModuleState × Except PyError Unit :=
  let p := set_setup_attributes M { s with callback_active := false } kwds
  match p.2 with
  | Except.error e => ({ p.1 with callback_active := true }, Except.error e)
  | Except.ok _ =>
    let q := runBody M.setupBody { p.1 with setup_runs := p.1.setup_runs + 1 }
    ({ q.1 with callback_active := true }, q.2)

/-- Modelled from the spec: a direct attribute write outside of `setup`
(the full descriptor setter of `pyrpl/attributes.py`, not among the given
source files): store and persist the value, then, "if `callback_active` and
the attribute name is in `callback_attribute_names` ..., invoke the
module's callback hook after the write".  The hook is
`BaseModule._callback` (modules.py lines 360-365), which calls
`self.setup()` with no arguments; the ghost counter `callback_count`
records the invocation. -/
def setattrOutside (M : ModuleClass) (s : ModuleState) (k : String)
    (v : Int) : ModuleState × Except PyError Unit :=
  let s := writeNoCB s k v
  if s.callback_active && k ∈ M.callbackAttrs then
    setup M { s with callback_count := s.callback_count + 1 } []
  else (s, Except.ok ())

/-- The `dic` built by `load_setup_attributes` (modules.py lines 244-248):
the config-branch entries whose key is a recognised setup attribute, in
config order. -/
def configSetupEntries (M : ModuleClass) (cfg : List (String × Int)) :
    List (String × Int) :=
  match cfg with
  | [] => []
  | (k, v) :: rest =>
    if k ∈ M.setupAttrs then (k, v) :: configSetupEntries M rest
    else configSetupEntries M rest

/-- `BaseModule.load_setup_attributes` (modules.py lines 240-249): collect
the config-branch entries whose key is a recognised setup attribute and
apply them with `set_setup_attributes`. -/
def load_setup_attributes (M : ModuleClass) (s : ModuleState) :
    ModuleState × Except PyError Unit :=
  set_setup_attributes M s (configSetupEntries M s.config)

/-- `BaseModule.load_state(name)` (modules.py lines 269-279): raise
`KeyError("State <name> doesn't exist for modules <class>")` if `name` is
absent from the states branch, else `self.setup(**state_branch[name])`. -/
def load_state (M : ModuleClass) (s : ModuleState) (name : String) :
    ModuleState × Except PyError Unit :=
  match dictGet s.states name with
  | none =>
    (s, Except.error (PyError.keyError
      ("State " ++ name ++ " doesn't exist for modules " ++ M.className)))
  | some stored => setup M s stored

/-- `BaseModule.save_state(name)` (modules.py lines 260-267) with the
default states branch: `state_branch[name] = self.get_setup_attributes()`,
where `get_setup_attributes` (lines 209-216) snapshots the current values
of the setup attributes in declaration order. -/
def save_state (M : ModuleClass) (s : ModuleState) (name : String) :
    ModuleState :=
  let snapshot := M.setupAttrs.filterMap
    (fun a => (dictGet s.values a).map (fun v => (a, v)))
  { s with states := dictSet s.states name snapshot }

/-- The `owner` property setter (modules.py lines 371-389): record the new
owner, couple `_autosave_active` to it, call the `ownership_changed` hook
(`pass` in `HardwareModule`), and, when the new owner is `None`, re-apply
the persisted configuration with `self.setup(**self.c._dict)`. -/
def owner_set (M : ModuleClass) (s : ModuleState) (val : Option String) :
    ModuleState × Except PyError Unit :=
  let s := { s with owner := val }
  match val with
  | none =>
    let s := { s with autosave_active := true }
    setup M s s.config
  | some _ =>
    let s := { s with autosave_active := false }
    (s, Except.ok ())

/-- `BaseModule.free` (modules.py lines 297-301): `self.owner = None`. -/
def free (M : ModuleClass) (s : ModuleState) :
    ModuleState × Except PyError Unit :=
  owner_set M s none

/-- `BaseModule.create_widget` (modules.py lines 331-342): clear both
flags, build the widget, and set **both** flags to `True` in the
`finally` — regardless of their values before the call. -/
def create_widget (s : ModuleState) : ModuleState :=
  let s := { s with callback_active := false, autosave_active := false }
  let s := { s with has_widget := true }
  { s with callback_active := true, autosave_active := true }

/-- `BaseModule.__init__` (modules.py lines 182-201): a fresh instance
starts from the class-level defaults `_callback_active = True`,
`_owner = None` (lines 168-174); `__init__` clears `_autosave_active`, runs
`_init_module()` (`pass` in `BaseModule`), and sets `_autosave_active =
True`. -/
def initState (config : List (String × Int))
    (states : List (String × List (String × Int))) : ModuleState :=
  { values := [], config := config, states := states,
    callback_active := true, autosave_active := true, owner := none,
    callback_count := 0, setup_runs := 0, has_widget := false }

/-! ## `HardwareModule.__setattr__` (modules.py lines 468-483) -/

/-- The state of a `HardwareModule` instance seen by `__setattr__`: its
instance dictionary `self.__dict__` and the names defined on its class
(`hasattr(self.__class__, name)`). -/
structure HWInstance where
  instDict : List (String × Int)
  classAttrs : List String
  deriving Repr, DecidableEq

/-- `HardwareModule.__setattr__(name, value)`: allow the write if the name
starts with an underscore, is already in `self.__dict__`, or is defined on
the class; otherwise raise `ValueError` and leave the instance unchanged.
The allowed write is `super(BaseModule, self).__setattr__(name, value)`,
i.e. a plain instance-dictionary store. -/
def hw_setattr (inst : HWInstance) (name : String) (value : Int) :
    HWInstance × Except PyError Unit :=
  if name.startsWith "_" ∨ (dictGet inst.instDict name).isSome
      ∨ name ∈ inst.classAttrs then
    ({ inst with instDict := dictSet inst.instDict name value }, Except.ok ())
  else
    (inst, Except.error (PyError.valueError
      ("New module attributes may not be set at runtime. Attribute "
        ++ name ++ " is not defined in class " ++ "HardwareModule")))

/-- The ownership/autosave coupling of the spec: a non-`None` owner implies
autosave is off, and no owner implies autosave is on. -/
def ownerAutosaveInv (s : ModuleState) : Prop :=
  (s.owner ≠ none → s.autosave_active = false) ∧
  (s.owner = none → s.autosave_active = true)

/-! ## Basic lemmas about the dictionary embedding -/

@[simp]
theorem dictGet_dictSet_self {α : Type} (d : List (String × α)) (k : String)
    (v : α) : dictGet (dictSet d k v) k = some v := by
  induction d with
  | nil => simp [dictSet, dictGet]
  | cons kv rest ih =>
    obtain ⟨k', v'⟩ := kv
    by_cases h : k' = k <;> simp [dictSet, dictGet, h, ih]

theorem dictGet_dictSet_ne {α : Type} (d : List (String × α)) {k k' : String}
    (v : α) (h : k' ≠ k) : dictGet (dictSet d k v) k' = dictGet d k' := by
  have hkk : ¬(k = k') := fun h' => h h'.symm
  induction d with
  | nil => simp [dictSet, dictGet, hkk]
  | cons kv rest ih =>
    obtain ⟨a, b⟩ := kv
    by_cases ha : a = k
    · subst ha
      simp [dictSet, dictGet, hkk]
    · simp only [dictSet, if_neg ha, dictGet]
      by_cases hb : a = k' <;> simp [hb, ih]

theorem dictGet_eq_none_key_ne {α : Type} {d : List (String × α)}
    {k : String} (h : dictGet d k = none) : ∀ kv ∈ d, kv.1 ≠ k := by
  induction d with
  | nil => simp
  | cons kv rest ih =>
    obtain ⟨a, b⟩ := kv
    simp only [dictGet] at h
    by_cases ha : a = k
    · simp [ha] at h
    · intro x hx
      rcases List.mem_cons.mp hx with hx | hx
      · subst hx; exact ha
      · exact ih (by simpa [ha] using h) x hx

theorem dictGet_dictPop_ne {α : Type} {d : List (String × α)} {k x : String}
    (h : x ≠ k) : dictGet (dictPop d k) x = dictGet d x := by
  induction d with
  | nil => rfl
  | cons kv rest ih =>
    obtain ⟨a, b⟩ := kv
    by_cases ha : a = k
    · subst ha
      have hax : ¬(a = x) := fun h' => h h'.symm
      simp only [dictPop, if_pos rfl, dictGet, if_neg hax]
      exact ih
    · simp only [dictPop, if_neg ha, dictGet]
      by_cases hx : a = x <;> simp [hx, ih]

theorem dictGet_dictPop_self {α : Type} (d : List (String × α)) (k : String) :
    dictGet (dictPop d k) k = none := by
  induction d with
  | nil => rfl
  | cons kv rest ih =>
    obtain ⟨a, b⟩ := kv
    by_cases ha : a = k
    · simpa [dictPop, ha] using ih
    · simpa [dictPop, ha, dictGet] using ih

theorem mem_dictPop {α : Type} {d : List (String × α)} {k : String}
    {kv : String × α} (h : kv ∈ dictPop d k) : kv ∈ d ∧ kv.1 ≠ k := by
  induction d with
  | nil => cases h
  | cons ab rest ih =>
    obtain ⟨a, b⟩ := ab
    by_cases ha : a = k
    · subst ha
      simp only [dictPop, if_pos rfl] at h
      rcases ih h with ⟨h1, h2⟩
      exact ⟨List.mem_cons_of_mem _ h1, h2⟩
    · simp only [dictPop, if_neg ha] at h
      rcases List.mem_cons.mp h with h1 | h1
      · subst h1
        exact ⟨List.mem_cons_self _ _, ha⟩
      · rcases ih h1 with ⟨h2, h3⟩
        exact ⟨List.mem_cons_of_mem _ h2, h3⟩

/-! ## Field-preservation lemmas -/

@[simp]
theorem writeNoCB_callback_active (s : ModuleState) (k : String) (v : Int) :
    (writeNoCB s k v).callback_active = s.callback_active := by
  simp only [writeNoCB]
  split <;> rfl

@[simp]
theorem writeNoCB_autosave_active (s : ModuleState) (k : String) (v : Int) :
    (writeNoCB s k v).autosave_active = s.autosave_active := by
  simp only [writeNoCB]
  split <;> rfl

@[simp]
theorem writeNoCB_owner (s : ModuleState) (k : String) (v : Int) :
    (writeNoCB s k v).owner = s.owner := by
  simp only [writeNoCB]
  split <;> rfl

@[simp]
theorem writeNoCB_callback_count (s : ModuleState) (k : String) (v : Int) :
    (writeNoCB s k v).callback_count = s.callback_count := by
  simp only [writeNoCB]
  split <;> rfl

@[simp]
theorem writeNoCB_setup_runs (s : ModuleState) (k : String) (v : Int) :
    (writeNoCB s k v).setup_runs = s.setup_runs := by
  simp only [writeNoCB]
  split <;> rfl

@[simp]
theorem writeNoCB_states (s : ModuleState) (k : String) (v : Int) :
    (writeNoCB s k v).states = s.states := by
  simp only [writeNoCB]
  split <;> rfl

@[simp]
theorem writeNoCB_has_widget (s : ModuleState) (k : String) (v : Int) :
    (writeNoCB s k v).has_widget = s.has_widget := by
  simp only [writeNoCB]
  split <;> rfl

@[simp]
theorem writeNoCB_values (s : ModuleState) (k : String) (v : Int) :
    (writeNoCB s k v).values = dictSet s.values k v := by
  simp only [writeNoCB]
  split <;> rfl

theorem writeNoCB_config_of_not_autosave {s : ModuleState}
    (h : s.autosave_active = false) (k : String) (v : Int) :
    (writeNoCB s k v).config = s.config := by
  simp [writeNoCB, h]

/-- All module-state fields other than `values`, `config` and `setup_runs`
are untouched by `runBody`. -/
theorem runBody_preserves (body : List SetupOp) (s : ModuleState) :
    (runBody body s).1.callback_active = s.callback_active ∧
    (runBody body s).1.autosave_active = s.autosave_active ∧
    (runBody body s).1.owner = s.owner ∧
    (runBody body s).1.callback_count = s.callback_count ∧
    (runBody body s).1.states = s.states ∧
    (runBody body s).1.has_widget = s.has_widget := by
  induction body generalizing s with
  | nil => simp [runBody]
  | cons op rest ih =>
    cases op with
    | writeAttr k v => simpa [runBody] using ih (writeNoCB s k v)
    | fail e => simp [runBody]

theorem runBody_nil (s : ModuleState) : runBody [] s = (s, Except.ok ()) :=
  rfl

/-- All module-state fields other than `values` and `config` are untouched
by the `set_setup_attributes` write loop. -/
theorem popLoop_preserves (attrs : List String) (s : ModuleState)
    (kwds : List (String × Int)) :
    (popLoop attrs s kwds).1.callback_active = s.callback_active ∧
    (popLoop attrs s kwds).1.autosave_active = s.autosave_active ∧
    (popLoop attrs s kwds).1.owner = s.owner ∧
    (popLoop attrs s kwds).1.callback_count = s.callback_count ∧
    (popLoop attrs s kwds).1.setup_runs = s.setup_runs ∧
    (popLoop attrs s kwds).1.states = s.states ∧
    (popLoop attrs s kwds).1.has_widget = s.has_widget := by
  induction attrs generalizing s kwds with
  | nil => simp [popLoop]
  | cons a rest ih =>
    simp only [popLoop]
    cases h : dictGet kwds a with
    | none => exact ih s kwds
    | some v => simpa using ih (writeNoCB s a v) (dictPop kwds a)

/-- With no keyword arguments the write loop does nothing. -/
theorem popLoop_nil_kwds (attrs : List String) (s : ModuleState) :
    popLoop attrs s [] = (s, []) := by
  induction attrs with
  | nil => rfl
  | cons a rest ih => simpa [popLoop, dictGet] using ih

/-- If every keyword-argument key is a recognised setup attribute, the
write loop consumes all of them. -/
theorem popLoop_rem_nil (attrs : List String) (s : ModuleState)
    (kwds : List (String × Int)) (h : ∀ kv ∈ kwds, kv.1 ∈ attrs) :
    (popLoop attrs s kwds).2 = [] := by
  induction attrs generalizing s kwds with
  | nil =>
    cases kwds with
    | nil => rfl
    | cons kv krest =>
      have hmem := h kv (List.mem_cons_self kv krest)
      simp at hmem
  | cons a rest ih =>
    simp only [popLoop]
    cases hg : dictGet kwds a with
    | none =>
      refine ih s kwds (fun kv hkv => ?_)
      rcases List.mem_cons.mp (h kv hkv) with h1 | h1
      · exact absurd h1 (dictGet_eq_none_key_ne hg kv hkv)
      · exact h1
    | some v =>
      refine ih (writeNoCB s a v) (dictPop kwds a) (fun kv hkv => ?_)
      obtain ⟨hmem, hne⟩ := mem_dictPop hkv
      rcases List.mem_cons.mp (h kv hmem) with h1 | h1
      · exact absurd h1 hne
      · exact h1

/-- A key absent from the keyword arguments keeps its current value across
the write loop. -/
theorem popLoop_values_of_none (attrs : List String) (s : ModuleState)
    (kwds : List (String × Int)) {x : String}
    (h : dictGet kwds x = none) :
    dictGet (popLoop attrs s kwds).1.values x = dictGet s.values x := by
  induction attrs generalizing s kwds with
  | nil => simp [popLoop]
  | cons a rest ih =>
    simp only [popLoop]
    cases hg : dictGet kwds a with
    | none => exact ih s kwds h
    | some v =>
      have hax : a ≠ x := fun hax => by rw [hax] at hg; rw [hg] at h; cases h
      have hxa : x ≠ a := fun h' => hax h'.symm
      have h2 : dictGet (dictPop kwds a) x = none := by
        rw [dictGet_dictPop_ne hxa]; exact h
      rw [ih (writeNoCB s a v) (dictPop kwds a) h2]
      simp [dictGet_dictSet_ne _ _ hxa]

/-- A recognised key present in the keyword arguments ends up with exactly
the provided value after the write loop. -/
theorem popLoop_values_of_mem (attrs : List String) (s : ModuleState)
    (kwds : List (String × Int)) {x : String} {v : Int}
    (hx : x ∈ attrs) (h : dictGet kwds x = some v) :
    dictGet (popLoop attrs s kwds).1.values x = some v := by
  induction attrs generalizing s kwds with
  | nil => cases hx
  | cons a rest ih =>
    simp only [popLoop]
    by_cases hax : a = x
    · subst hax
      rw [h]
      rw [popLoop_values_of_none rest _ _ (dictGet_dictPop_self kwds a)]
      simp
    · cases hg : dictGet kwds a with
      | none =>
        have hxr : x ∈ rest := by
          rcases List.mem_cons.mp hx with h1 | h1
          · exact absurd h1.symm hax
          · exact h1
        exact ih s kwds hxr h
      | some w =>
        have hxr : x ∈ rest := by
          rcases List.mem_cons.mp hx with h1 | h1
          · exact absurd h1.symm hax
          · exact h1
        have h2 : dictGet (dictPop kwds a) x = some v := by
          rw [dictGet_dictPop_ne (fun h' : x = a => hax h'.symm)]; exact h
        exact ih (writeNoCB s a w) (dictPop kwds a) hxr h2

/-! ## Lemmas about `configSetupEntries` -/

theorem configSetupEntries_keys (M : ModuleClass)
    (cfg : List (String × Int)) :
    ∀ kv ∈ configSetupEntries M cfg, kv.1 ∈ M.setupAttrs := by
  induction cfg with
  | nil => simp [configSetupEntries]
  | cons kv rest ih =>
    obtain ⟨k, v⟩ := kv
    by_cases hk : k ∈ M.setupAttrs
    · simp only [configSetupEntries, if_pos hk]
      intro x hx
      rcases List.mem_cons.mp hx with h1 | h1
      · subst h1; exact hk
      · exact ih x h1
    · simpa [configSetupEntries, hk] using ih

theorem dictGet_configSetupEntries_of_mem (M : ModuleClass)
    (cfg : List (String × Int)) {x : String} (hx : x ∈ M.setupAttrs) :
    dictGet (configSetupEntries M cfg) x = dictGet cfg x := by
  induction cfg with
  | nil => rfl
  | cons kv rest ih =>
    obtain ⟨k, v⟩ := kv
    by_cases hk : k ∈ M.setupAttrs
    · simp only [configSetupEntries, if_pos hk, dictGet]
      by_cases hkx : k = x <;> simp [hkx, ih]
    · have hkx : ¬(k = x) := fun h => hk (h ▸ hx)
      simp [configSetupEntries, hk, dictGet, hkx, ih]

theorem dictGet_configSetupEntries_of_not_mem (M : ModuleClass)
    (cfg : List (String × Int)) {x : String} (hx : x ∉ M.setupAttrs) :
    dictGet (configSetupEntries M cfg) x = none := by
  induction cfg with
  | nil => rfl
  | cons kv rest ih =>
    obtain ⟨k, v⟩ := kv
    by_cases hk : k ∈ M.setupAttrs
    · have hkx : ¬(k = x) := fun h => hx (h ▸ hk)
      simp [configSetupEntries, hk, dictGet, hkx, ih]
    · simp [configSetupEntries, hk, ih]

/-! ## Lemmas about `set_setup_attributes` -/

theorem set_setup_attributes_fst (M : ModuleClass) (s : ModuleState)
    (kwds : List (String × Int)) :
    (set_setup_attributes M s kwds).1 =
      { (popLoop M.setupAttrs { s with callback_active := false } kwds).1
        with callback_active := s.callback_active } := by
  simp only [set_setup_attributes]
  split <;> rfl

theorem set_setup_attributes_callback_active (M : ModuleClass)
    (s : ModuleState) (kwds : List (String × Int)) :
    (set_setup_attributes M s kwds).1.callback_active = s.callback_active := by
  rw [set_setup_attributes_fst]

theorem set_setup_attributes_preserves (M : ModuleClass) (s : ModuleState)
    (kwds : List (String × Int)) :
    (set_setup_attributes M s kwds).1.autosave_active = s.autosave_active ∧
    (set_setup_attributes M s kwds).1.owner = s.owner ∧
    (set_setup_attributes M s kwds).1.callback_count = s.callback_count ∧
    (set_setup_attributes M s kwds).1.setup_runs = s.setup_runs ∧
    (set_setup_attributes M s kwds).1.states = s.states ∧
    (set_setup_attributes M s kwds).1.has_widget = s.has_widget := by
  rw [set_setup_attributes_fst]
  obtain ⟨-, h2, h3, h4, h5, h6, h7⟩ :=
    popLoop_preserves M.setupAttrs { s with callback_active := false } kwds
  exact ⟨h2, h3, h4, h5, h6, h7⟩

theorem set_setup_attributes_values_of_mem (M : ModuleClass)
    (s : ModuleState) (kwds : List (String × Int)) {x : String} {v : Int}
    (hx : x ∈ M.setupAttrs) (h : dictGet kwds x = some v) :
    dictGet (set_setup_attributes M s kwds).1.values x = some v := by
  rw [set_setup_attributes_fst]
  exact popLoop_values_of_mem M.setupAttrs _ kwds hx h

theorem set_setup_attributes_values_of_none (M : ModuleClass)
    (s : ModuleState) (kwds : List (String × Int)) {x : String}
    (h : dictGet kwds x = none) :
    dictGet (set_setup_attributes M s kwds).1.values x =
      dictGet s.values x := by
  rw [set_setup_attributes_fst]
  exact popLoop_values_of_none M.setupAttrs _ kwds h

theorem set_setup_attributes_ok (M : ModuleClass) (s : ModuleState)
    (kwds : List (String × Int)) (h : ∀ kv ∈ kwds, kv.1 ∈ M.setupAttrs) :
    (set_setup_attributes M s kwds).2 = Except.ok () := by
  simp only [set_setup_attributes]
  rw [popLoop_rem_nil M.setupAttrs _ kwds h]
  simp

/-! ## Lemmas about `setup` -/

theorem setup_callback_active_true (M : ModuleClass) (s : ModuleState)
    (kwds : List (String × Int)) :
    (setup M s kwds).1.callback_active = true := by
  simp only [setup]
  split <;> rfl

theorem setup_preserves (M : ModuleClass) (s : ModuleState)
    (kwds : List (String × Int)) :
    (setup M s kwds).1.autosave_active = s.autosave_active ∧
    (setup M s kwds).1.owner = s.owner ∧
    (setup M s kwds).1.callback_count = s.callback_count ∧
    (setup M s kwds).1.states = s.states ∧
    (setup M s kwds).1.has_widget = s.has_widget := by
  simp only [setup]
  obtain ⟨hs1, hs2, hs3, hs4, hs5, hs6⟩ :=
    set_setup_attributes_preserves M { s with callback_active := false } kwds
  split
  · exact ⟨hs1, hs2, hs3, hs5, hs6⟩
  · obtain ⟨-, hb2, hb3, hb4, hb5, hb6⟩ := runBody_preserves M.setupBody
      { (set_setup_attributes M { s with callback_active := false } kwds).1
        with setup_runs :=
          (set_setup_attributes M { s with callback_active := false }
            kwds).1.setup_runs + 1 }
    exact ⟨hb2.trans hs1, hb3.trans hs2, hb4.trans hs3,
      hb5.trans hs5, hb6.trans hs6⟩

/-- `setup()` with no keyword arguments and a trivial module-specific
`_setup` (the `pass` of `BaseModule._setup`) only re-enables callbacks and
records one `_setup` invocation. -/
theorem setup_nil_kwds (M : ModuleClass) (hbody : M.setupBody = [])
    (s : ModuleState) :
    setup M s [] =
      ({ s with callback_active := true, setup_runs := s.setup_runs + 1 },
        Except.ok ()) := by
  simp [setup, set_setup_attributes, popLoop_nil_kwds, hbody, runBody]

theorem setup_values_of_mem (M : ModuleClass) (hbody : M.setupBody = [])
    (s : ModuleState) (kwds : List (String × Int)) {x : String} {v : Int}
    (hx : x ∈ M.setupAttrs) (h : dictGet kwds x = some v) :
    dictGet (setup M s kwds).1.values x = some v := by
  simp only [setup]
  split
  · exact set_setup_attributes_values_of_mem M _ kwds hx h
  · rw [hbody, runBody_nil]
    exact set_setup_attributes_values_of_mem M _ kwds hx h

/-! ## Lemmas about `setattrOutside`, `owner_set`, `load_state`,
`save_state` -/

theorem setattrOutside_preserves (M : ModuleClass) (s : ModuleState)
    (k : String) (v : Int) :
    (setattrOutside M s k v).1.autosave_active = s.autosave_active ∧
    (setattrOutside M s k v).1.owner = s.owner := by
  simp only [setattrOutside]
  split
  · obtain ⟨h1, h2, -, -, -⟩ := setup_preserves M
      { writeNoCB s k v with callback_count :=
        (writeNoCB s k v).callback_count + 1 } []
    constructor
    · rw [h1]; simp
    · rw [h2]; simp
  · simp

theorem owner_set_some (M : ModuleClass) (s : ModuleState) (t : String) :
    owner_set M s (some t) =
      ({ s with owner := some t, autosave_active := false },
        Except.ok ()) := rfl

theorem owner_set_none_owner (M : ModuleClass) (s : ModuleState) :
    (owner_set M s none).1.owner = none := by
  simp only [owner_set]
  exact (setup_preserves M _ _).2.1

theorem owner_set_none_autosave (M : ModuleClass) (s : ModuleState) :
    (owner_set M s none).1.autosave_active = true := by
  simp only [owner_set]
  exact (setup_preserves M _ _).1

theorem load_state_preserves (M : ModuleClass) (s : ModuleState)
    (name : String) :
    (load_state M s name).1.autosave_active = s.autosave_active ∧
    (load_state M s name).1.owner = s.owner := by
  simp only [load_state]
  split
  · exact ⟨rfl, rfl⟩
  · exact ⟨(setup_preserves M s _).1, (setup_preserves M s _).2.1⟩

/-! ## Codec lemmas -/

/-- Signed round-trip of the register codec: for widths between 1 and 32
(the `np.uint32` return type of `_from_pyint` caps faithful widths at 32)
and any value in the signed representable range, decoding the encoding is
the identity. -/
theorem toPyint_fromPyint_signed (w : Nat) (v : Int) (h1 : 1 ≤ w)
    (h2 : w ≤ 32) (hlo : -(2 ^ (w - 1)) ≤ v) (hhi : v ≤ 2 ^ (w - 1) - 1) :
    toPyint (fromPyint v w) w = v := by
  have hp : (0:Int) < 2 ^ (w - 1) := by positivity
  have hsplit : (2:Int) ^ w = 2 ^ (w - 1) * 2 := by
    conv_lhs => rw [show w = w - 1 + 1 by omega]
    rw [pow_succ]
  have hle32 : (2:Int) ^ w ≤ 2 ^ 32 := pow_le_pow_right₀ (by norm_num) h2
  set A : Int := if v < 0 then v + 2 ^ w else v with hAdef
  have hA0 : 0 ≤ A := by
    rw [hAdef]; split <;> omega
  have hAlt : A < 2 ^ w := by
    rw [hAdef]; split <;> omega
  have hfrom : ((fromPyint v w : Nat) : Int) = A := by
    simp only [fromPyint]
    rw [← hAdef, Int.emod_eq_of_lt hA0 hAlt]
    have h32 : A.toNat < 2 ^ 32 := by
      rw [Int.toNat_lt' (by norm_num)]
      calc A < 2 ^ w := hAlt
        _ ≤ 2 ^ 32 := hle32
        _ = ((2 ^ 32 : Nat) : Int) := by norm_num
    rw [Nat.mod_eq_of_lt h32, Int.toNat_of_nonneg hA0]
  rw [hfrom]
  simp only [toPyint]
  rw [Int.emod_eq_of_lt hA0 hAlt]
  by_cases hv : v < 0
  · have hA : A = v + 2 ^ w := by rw [hAdef, if_pos hv]
    have hge : 2 ^ (w - 1) ≤ A := by omega
    have hq : 1 ≤ A / 2 ^ (w - 1) :=
      (Int.le_ediv_iff_mul_le hp).mpr (by omega)
    rw [if_pos (by omega : A / 2 ^ (w - 1) ≠ 0)]
    omega
  · have hA : A = v := by rw [hAdef, if_neg hv]
    have hq : A / 2 ^ (w - 1) = 0 :=
      Int.ediv_eq_zero_of_lt (by omega) (by omega)
    rw [if_neg (by simp [hq])]
    omega

/-- Transport of the ownership/autosave coupling along operations that
change neither field. -/
theorem ownerAutosaveInv_of_eq {s t : ModuleState} (h : ownerAutosaveInv s)
    (ho : t.owner = s.owner) (ha : t.autosave_active = s.autosave_active) :
    ownerAutosaveInv t := by
  unfold ownerAutosaveInv at h ⊢
  rw [ho, ha]
  exact h

/-! ## Claim theorems -/

/-- **C1.** During `setup(**kwds)` no attribute write triggers the callback
hook — the ghost counter `callback_count` is unchanged across the call, so
no callback-triggered recursive `setup()` occurs even if `kwds` contains
every callback attribute — and after `setup` returns, normally or with an
exception from override application or from the module-specific `_setup`
routine, `_callback_active = true`. -/
theorem setup_suppresses_callbacks_and_restores_flag
    (M : ModuleClass) (s : ModuleState) (kwds : List (String × Int)) :
    (setup M s kwds).1.callback_active = true ∧
    (setup M s kwds).1.callback_count = s.callback_count :=
  ⟨setup_callback_active_true M s kwds, (setup_preserves M s kwds).2.2.1⟩

/-- **C2 (counterexample).** The round-trip
`_to_pyint(_from_pyint(v, w), w) = v` fails on the unsigned range: `8192`
lies in `[0, 2^14 - 1]` but decodes to `-8192`.  It also fails for widths
above 32 even on the signed range, because `_from_pyint` returns
`np.uint32`: at width 34, `2^32` (within `[-2^33, 2^33 - 1]`) decodes
to `0`. -/
theorem roundtrip_unsigned_counterexample :
    (0:Int) ≤ 8192 ∧ (8192:Int) ≤ 2 ^ 14 - 1 ∧
    toPyint (fromPyint 8192 14) 14 ≠ 8192 ∧
    -(2:Int) ^ (34 - 1) ≤ 2 ^ 32 ∧ (2:Int) ^ 32 ≤ 2 ^ (34 - 1) - 1 ∧
    toPyint (fromPyint (2 ^ 32) 34) 34 ≠ 2 ^ 32 := by
  decide

/-- **C2 (witness).** The signed round-trip theorem applied at width 14 and
value `-5`. -/
theorem toPyint_fromPyint_signed_witness :
    toPyint (fromPyint (-5) 14) 14 = -5 :=
  toPyint_fromPyint_signed 14 (-5) (by decide) (by decide) (by decide)
    (by decide)

/-- **C3.** Evaluation of `set_setup_attributes` on a call with one
recognised key `"a"` and one unrecognised key `"unknown"`: the recognised
key is applied (and autosaved) first, and the call then raises — but the
exception is `KeyError: 0`, produced by the message expression `kwds[0]`
(a dict indexed with the integer `0`), not the intended unknown-attribute
`ValueError`. -/
theorem set_setup_attributes_unknown_key_raises_keyerror :
    set_setup_attributes ⟨"basemodule", ["a"], ["a"], []⟩ (initState [] [])
        [("a", 1), ("unknown", 7)] =
      ({ initState [] [] with values := [("a", 1)], config := [("a", 1)] },
        Except.error (PyError.keyError "0")) := by
  rfl

/-- **C4.** For a module whose setup attribute `x` is persisted in the
config branch with value `v`: acquiring an owner, writing `x := w` under
ownership, and releasing leaves `x = v` — the owned write was never
persisted (autosave suppressed), and release re-applies the persisted
configuration via `setup(**self.c._dict)`. -/
theorem acquire_write_release_restores_persisted
    (M : ModuleClass) (s : ModuleState) (x tok : String) (v w : Int)
    (hbody : M.setupBody = []) (hx : x ∈ M.setupAttrs)
    (hcfg : dictGet s.config x = some v) :
    dictGet (owner_set M
        (setattrOutside M (owner_set M s (some tok)).1 x w).1 none).1.values
      x = some v := by
  set s1 : ModuleState :=
    { s with owner := some tok, autosave_active := false } with hs1def
  have hs1 : (owner_set M s (some tok)).1 = s1 := rfl
  rw [hs1]
  have hw : (writeNoCB s1 x w).config = s.config :=
    writeNoCB_config_of_not_autosave rfl x w
  have hcfg2 : dictGet (setattrOutside M s1 x w).1.config x = some v := by
    simp only [setattrOutside]
    split
    · rw [setup_nil_kwds M hbody]
      show dictGet (writeNoCB s1 x w).config x = some v
      rw [hw]; exact hcfg
    · show dictGet (writeNoCB s1 x w).config x = some v
      rw [hw]; exact hcfg
  simp only [owner_set]
  exact setup_values_of_mem M hbody _ _ hx hcfg2

/-- **C4 (witness).** The acquire/write/release theorem at a concrete
module with attribute `"x"` persisted as `5`, overwritten with `99` under
ownership `"scope"`. -/
theorem acquire_write_release_witness :
    dictGet (owner_set ⟨"m", ["x"], ["x"], []⟩
        (setattrOutside ⟨"m", ["x"], ["x"], []⟩
          (owner_set ⟨"m", ["x"], ["x"], []⟩ (initState [("x", 5)] [])
            (some "scope")).1 "x" 99).1 none).1.values "x" = some 5 :=
  acquire_write_release_restores_persisted ⟨"m", ["x"], ["x"], []⟩
    (initState [("x", 5)] []) "x" "scope" 5 99 rfl (by decide) (by decide)

/-- **C5 (counterexample).** The ownership/autosave coupling is *not*
preserved by every public operation: `create_widget` sets
`_autosave_active = True` in its `finally` regardless of ownership, so
calling it on an owned module leaves `owner ≠ none` with
`autosave_active = true`. -/
theorem create_widget_breaks_owner_autosave_coupling :
    ownerAutosaveInv ⟨[], [], [], true, false, some "scope", 0, 0, false⟩ ∧
    ¬ ownerAutosaveInv
      (create_widget ⟨[], [], [], true, false, some "scope", 0, 0, false⟩) := by
  constructor
  · exact ⟨fun _ => rfl, fun h => by cases h⟩
  · intro hinv
    have h1 := hinv.1 (by simp [create_widget])
    simp [create_widget] at h1

/-- **C5 (amended).** The ownership/autosave coupling (`owner ≠ none`
implies autosave off; `owner = none` implies autosave on) holds after
construction and is preserved by every ownership change, attribute write,
`setup`, bulk set, state load/save and config reload — every public
operation except `create_widget`. -/
theorem owner_autosave_coupling_preserved
    (M : ModuleClass) (s : ModuleState)
    (cfg : List (String × Int)) (sts : List (String × List (String × Int)))
    (k nm : String) (v : Int) (kwds : List (String × Int))
    (h : ownerAutosaveInv s) :
    ownerAutosaveInv (initState cfg sts) ∧
    (∀ val, ownerAutosaveInv (owner_set M s val).1) ∧
    ownerAutosaveInv (setattrOutside M s k v).1 ∧
    ownerAutosaveInv (setup M s kwds).1 ∧
    ownerAutosaveInv (set_setup_attributes M s kwds).1 ∧
    ownerAutosaveInv (load_state M s nm).1 ∧
    ownerAutosaveInv (load_setup_attributes M s).1 ∧
    ownerAutosaveInv (save_state M s nm) := by
  refine ⟨⟨fun h' => absurd rfl h', fun _ => rfl⟩, fun val => ?_, ?_, ?_, ?_,
    ?_, ?_, ?_⟩
  · cases val with
    | none =>
      exact ⟨fun h' => absurd (owner_set_none_owner M s) h',
        fun _ => owner_set_none_autosave M s⟩
    | some t =>
      rw [owner_set_some]
      exact ⟨fun _ => rfl, fun h' => by cases h'⟩
  · exact ownerAutosaveInv_of_eq h (setattrOutside_preserves M s k v).2
      (setattrOutside_preserves M s k v).1
  · exact ownerAutosaveInv_of_eq h (setup_preserves M s kwds).2.1
      (setup_preserves M s kwds).1
  · exact ownerAutosaveInv_of_eq h
      (set_setup_attributes_preserves M s kwds).2.1
      (set_setup_attributes_preserves M s kwds).1
  · exact ownerAutosaveInv_of_eq h (load_state_preserves M s nm).2
      (load_state_preserves M s nm).1
  · simp only [load_setup_attributes]
    exact ownerAutosaveInv_of_eq h
      (set_setup_attributes_preserves M s _).2.1
      (set_setup_attributes_preserves M s _).1
  · exact ownerAutosaveInv_of_eq h rfl rfl

/-- **C5 (witness).** The coupling-preservation theorem applied to a
concrete owned module being released. -/
theorem owner_autosave_coupling_witness :
    ownerAutosaveInv (owner_set ⟨"m", ["x"], ["x"], []⟩
      ⟨[], [], [], true, false, some "o", 0, 0, false⟩ none).1 :=
  ((owner_autosave_coupling_preserved ⟨"m", ["x"], ["x"], []⟩
      ⟨[], [], [], true, false, some "o", 0, 0, false⟩ [] [] "x" "st" 0 []
      ⟨fun _ => rfl, fun h => by cases h⟩).2.1) none

/-- **C6.** `load_state(name)` with `name` absent from the states branch
raises the state-not-found error (`KeyError("State ... doesn't exist for
modules ...")`) and returns the state unchanged: no attribute is written
and `setup` is not invoked. -/
theorem load_state_missing_raises_and_preserves
    (M : ModuleClass) (s : ModuleState) (name : String)
    (h : dictGet s.states name = none) :
    load_state M s name = (s, Except.error (PyError.keyError
      ("State " ++ name ++ " doesn't exist for modules " ++
        M.className))) := by
  simp only [load_state, h]

/-- **C6 (witness).** `load_state` on a module with an empty states branch. -/
theorem load_state_missing_witness :
    load_state ⟨"basemodule", ["x"], ["x"], []⟩ (initState [] [])
        "nonexistent" =
      (initState [] [], Except.error (PyError.keyError
        ("State " ++ "nonexistent" ++ " doesn't exist for modules " ++
          "basemodule"))) :=
  load_state_missing_raises_and_preserves ⟨"basemodule", ["x"], ["x"], []⟩
    (initState [] []) "nonexistent" rfl

/-- **C7.** Assigning a (non-`None`) owner never fails, and on release
(`owner = None`) the owner field is already `None` in the resulting state
even when the release-time re-setup raises, so a failure does not revert
ownership. -/
theorem owner_acquire_never_fails_release_updates_first
    (M : ModuleClass) (s : ModuleState) (t : String) :
    (owner_set M s (some t)).2 = Except.ok () ∧
    (owner_set M s (some t)).1.owner = some t ∧
    (owner_set M s none).1.owner = none :=
  ⟨rfl, rfl, owner_set_none_owner M s⟩

/-- **C8.** `load_setup_attributes` never raises (unrecognised on-disk keys
are ignored), restores the callback flag, triggers no callback, does not
invoke the module-specific `_setup`, applies every config key that is a
recognised setup attribute, and leaves every attribute without a
recognised config entry unchanged. -/
theorem load_setup_attributes_spec (M : ModuleClass) (s : ModuleState) :
    (load_setup_attributes M s).2 = Except.ok () ∧
    (load_setup_attributes M s).1.callback_active = s.callback_active ∧
    (load_setup_attributes M s).1.callback_count = s.callback_count ∧
    (load_setup_attributes M s).1.setup_runs = s.setup_runs ∧
    (∀ x v, x ∈ M.setupAttrs → dictGet s.config x = some v →
      dictGet (load_setup_attributes M s).1.values x = some v) ∧
    (∀ x, x ∉ M.setupAttrs →
      dictGet (load_setup_attributes M s).1.values x =
        dictGet s.values x) := by
  simp only [load_setup_attributes]
  refine ⟨set_setup_attributes_ok M s _ (configSetupEntries_keys M s.config),
    set_setup_attributes_callback_active M s _,
    (set_setup_attributes_preserves M s _).2.2.1,
    (set_setup_attributes_preserves M s _).2.2.2.1,
    fun x v hx hv => ?_, fun x hx => ?_⟩
  · exact set_setup_attributes_values_of_mem M s _ hx
      (by rw [dictGet_configSetupEntries_of_mem M s.config hx]; exact hv)
  · exact set_setup_attributes_values_of_none M s _
      (dictGet_configSetupEntries_of_not_mem M s.config hx)

/-- **C8 (witness).** Config reload on a branch holding a recognised key
`"x"` and a stale unrecognised key `"junk"`. -/
theorem load_setup_attributes_witness :
    dictGet (load_setup_attributes ⟨"m", ["x"], ["x"], []⟩
      (initState [("x", 5), ("junk", 1)] [])).1.values "x" = some 5 :=
  ((load_setup_attributes_spec ⟨"m", ["x"], ["x"], []⟩
      (initState [("x", 5), ("junk", 1)] [])).2.2.2.2.1) "x" 5 (by decide)
    (by decide)

/-- **C9.** `HardwareModule.__setattr__`: a write to a name that starts
with an underscore, is already in the instance dictionary, or is defined on
the class goes through normally; any other write raises `ValueError` and
leaves the instance unchanged. -/
theorem hw_setattr_guard (inst : HWInstance) (name : String) (value : Int) :
    ((name.startsWith "_" ∨ (dictGet inst.instDict name).isSome
        ∨ name ∈ inst.classAttrs) →
      hw_setattr inst name value =
        ({ inst with instDict := dictSet inst.instDict name value },
          Except.ok ())) ∧
    (¬(name.startsWith "_" ∨ (dictGet inst.instDict name).isSome
        ∨ name ∈ inst.classAttrs) →
      hw_setattr inst name value = (inst, Except.error (PyError.valueError
        ("New module attributes may not be set at runtime. Attribute "
          ++ name ++ " is not defined in class " ++ "HardwareModule")))) := by
  constructor
  · intro h
    simp only [hw_setattr, if_pos h]
  · intro h
    simp only [hw_setattr, if_neg h]

/-- **C9 (witness).** A write to a name defined on the class goes
through. -/
theorem hw_setattr_guard_witness :
    hw_setattr ⟨[], ["out1"]⟩ "out1" 3 =
      (⟨dictSet [] "out1" 3, ["out1"]⟩, Except.ok ()) :=
  (hw_setattr_guard ⟨[], ["out1"]⟩ "out1" 3).1 (Or.inr (Or.inr (by decide)))

/-- **C10.** `set_setup_attributes` restores `_callback_active` to its
value before the call — not unconditionally to `true` — on the normal and
the error path alike, so a bulk set performed while callbacks are already
suppressed keeps them suppressed after it returns. -/
theorem set_setup_attributes_keeps_prior_callback_flag
    (M : ModuleClass) (s : ModuleState) (kwds : List (String × Int)) :
    (set_setup_attributes M s kwds).1.callback_active = s.callback_active :=
  set_setup_attributes_callback_active M s kwds

end Pyrpl
